import Mathlib

/-!
Verification of the mcp-server repository (src/mcp_server/server.py):
a FastMCP utility server exposing three time tools over two transports
(stdio and SSE).  The Python code is shallowly embedded below; behaviour of
the Python standard library (zoneinfo, datetime) is abstracted into an
explicit environment, and the small parts delegated to the external mcp
library (dispatch, SSE post handling) are modelled from the specification
where noted.
-/

namespace MCP

/-- Abstraction of the Python standard-library services the tool bodies use:
which timezone keys `zoneinfo.ZoneInfo` accepts, for which timestamps
`datetime.fromtimestamp` raises `OSError`/`OverflowError` (and with what
message), and the strftime renderings of the current time and of a converted
timestamp. -/
structure Env where
  validTz : String → Bool
  convFail : Int → Option String
  nowFmt : String → String
  tsFmt : Int → String → String
  nowTs : Int

/-- The Python exceptions that occur in `server.py`. `rangeError` stands for
the `(OSError, OverflowError)` pair caught in `format_timestamp`. -/
inductive PyExc where
  | valueError (msg : String)
  | zoneInfoNotFound
  | rangeError (msg : String)
deriving DecidableEq

/-- `zoneinfo.ZoneInfo(key)`: returns the zone, or raises
`ZoneInfoNotFoundError` for an unrecognized key. -/
def zoneInfo (env : Env) (key : String) : Except PyExc String :=
  if env.validTz key then Except.ok key else Except.error PyExc.zoneInfoNotFound

/-- server.py lines 36-70: `get_current_time(timezone)`.  Looks the timezone
up; on `ZoneInfoNotFoundError` raises `ValueError` whose message names the
timezone; otherwise formats the current time in that zone. -/
def get_current_time (env : Env) (timezone : String) : Except PyExc String :=
  match zoneInfo env timezone with
  | Except.error PyExc.zoneInfoNotFound =>
      Except.error (PyExc.valueError
        ("无效的时区名称: " ++ timezone ++
         "。请使用标准时区名称，如 \x27Asia/Shanghai\x27, \x27UTC\x27, \x27America/New_York\x27 等。"))
  | Except.error e => Except.error e
  | Except.ok tz => Except.ok (env.nowFmt tz)

/-- server.py line 37: the default value of the `timezone` parameter. -/
def get_current_time_default_tz : String := "Asia/Shanghai"

/-- server.py lines 73-84: `get_timestamp()` returns the current Unix
timestamp. -/
def get_timestamp (env : Env) : Int := env.nowTs

/-- `datetime.fromtimestamp(timestamp, tz)`: raises `OSError` or
`OverflowError` for timestamps outside the representable range. -/
def datetime_fromtimestamp (env : Env) (ts : Int) (tz : String) :
    Except PyExc (Int × String) :=
  match env.convFail ts with
  | some m => Except.error (PyExc.rangeError m)
  | none => Except.ok (ts, tz)

/-- server.py lines 87-112: `format_timestamp(timestamp, timezone)`.  First
the timezone lookup (its failure becomes a `ValueError` naming the timezone),
then the timestamp conversion (its `OSError`/`OverflowError` becomes a
`ValueError` naming the timestamp), then strftime. -/
def format_timestamp (env : Env) (timestamp : Int) (timezone : String) :
    Except PyExc String :=
  match zoneInfo env timezone with
  | Except.error PyExc.zoneInfoNotFound =>
      Except.error (PyExc.valueError ("无效的时区名称: " ++ timezone))
  | Except.error e => Except.error e
  | Except.ok tz =>
      match datetime_fromtimestamp env timestamp tz with
      | Except.ok dt => Except.ok (env.tsFmt dt.1 dt.2)
      | Except.error (PyExc.rangeError m) =>
          Except.error (PyExc.valueError
            ("无效的时间戳: " ++ toString timestamp ++ "。错误: " ++ m))
      | Except.error e => Except.error e

/-- server.py line 88: the default value of the `timezone` parameter. -/
def format_timestamp_default_tz : String := "Asia/Shanghai"

/-- `format_timestamp` instrumented with its control flow: the boolean
records whether `datetime.fromtimestamp` was reached.  In the source the
`try` block around the conversion is only entered after `ZoneInfo(timezone)`
succeeded. -/
def format_timestamp_trace (env : Env) (timestamp : Int) (timezone : String) :
    Except PyExc String × Bool :=
  match zoneInfo env timezone with
  | Except.error PyExc.zoneInfoNotFound =>
      (Except.error (PyExc.valueError ("无效的时区名称: " ++ timezone)), false)
  | Except.error e => (Except.error e, false)
  | Except.ok tz =>
      match datetime_fromtimestamp env timestamp tz with
      | Except.ok dt => (Except.ok (env.tsFmt dt.1 dt.2), true)
      | Except.error (PyExc.rangeError m) =>
          (Except.error (PyExc.valueError
            ("无效的时间戳: " ++ toString timestamp ++ "。错误: " ++ m)), true)
      | Except.error e => (Except.error e, true)

/-! ## The ASGI router (server.py lines 145-177) -/

/-- The parts of an ASGI scope dictionary that `app` reads: the mandatory
`type` and `path` entries and the `method` entry, absent in non-HTTP scopes
(the source reads it with `scope.get("method", "GET")`). -/
structure Scope where
  type : String
  path : String
  method : Option String
deriving DecidableEq

/-- An ASGI response event as sent by `app` itself. -/
inductive AsgiEvent where
  | responseStart (status : Nat) (headers : List (String × String))
  | responseBody (body : String)
deriving DecidableEq

/-- Which branch of `app` handles the exchange. -/
inductive RouteTarget where
  | handleSse
  | handlePostMessage
  | notFound
  | ignored
deriving DecidableEq

/-- server.py lines 145-177: the ASGI application.  Returns the branch taken
and the events `app` itself sends (the two SSE branches delegate all sending
to the transport handlers). -/
def app (scope : Scope) : RouteTarget × List AsgiEvent :=
  if scope.type ≠ "http" then (RouteTarget.ignored, [])
  else
    let path := scope.path
    let method := scope.method.getD "GET"
    if path = "/sse" ∧ method = "GET" then (RouteTarget.handleSse, [])
    else if path = "/messages" ∧ method = "POST" then (RouteTarget.handlePostMessage, [])
    else
      (RouteTarget.notFound,
        [ AsgiEvent.responseStart 404 [("content-type", "text/plain")],
          AsgiEvent.responseBody "Not Found" ])

/-- server.py line 131: the endpoint path `run_sse_server` passes to the
`SseServerTransport` constructor. -/
def sse_transport_endpoint : String := "/messages"

/-- Modelled from the spec: `SseServerTransport` (external mcp library)
emits, immediately upon opening an SSE stream, the message-submission
endpoint it was constructed with (with the session id appended as a query
parameter); the path part of that URL is the constructor argument. -/
def announced_endpoint : String := sse_transport_endpoint

/-! ## Tool registry and dispatch (server.py lines 36-112; dispatch itself is
in the external mcp library and is modelled from the spec) -/

/-- A decoded argument value, as FastMCP passes it to a handler. -/
inductive PyVal where
  | int (i : Int)
  | str (s : String)
deriving DecidableEq

/-- Call arguments: a mapping of parameter name to value. -/
def ToolArgs : Type := List (String × PyVal)

/-- Dictionary lookup on the arguments mapping. -/
def lookupArg (args : ToolArgs) (key : String) : Option PyVal :=
  (List.find? (fun p => p.1 = key) args).map Prod.snd

/-- Modelled from the spec: the dispatcher captures a handler-signaled
semantic error (a Python `ValueError`) and turns it into an error result
rather than a fault; any other exception is an unexpected internal fault,
also converted to an error result at the dispatcher boundary. -/
def captureExc (r : Except PyExc String) : Except String PyVal :=
  match r with
  | Except.ok s => Except.ok (PyVal.str s)
  | Except.error (PyExc.valueError m) => Except.error m
  | Except.error PyExc.zoneInfoNotFound => Except.error "internal error"
  | Except.error (PyExc.rangeError m) => Except.error ("internal error: " ++ m)

/-- Modelled from the spec: FastMCP derives the input schema of
`get_current_time` from its Python signature (one optional string parameter
`timezone`) and validates arguments against it before invoking the embedded
tool body. -/
def get_current_time_tool (env : Env) (args : ToolArgs) : Except String PyVal :=
  match lookupArg args "timezone" with
  | none => captureExc (get_current_time env get_current_time_default_tz)
  | some (PyVal.str s) => captureExc (get_current_time env s)
  | some (PyVal.int _) => Except.error "schema mismatch: timezone must be a string"

/-- Modelled from the spec: schema validation and invocation wrapper for
`get_timestamp` (no parameters). -/
def get_timestamp_tool (env : Env) (_args : ToolArgs) : Except String PyVal :=
  Except.ok (PyVal.int (get_timestamp env))

/-- Modelled from the spec: schema validation and invocation wrapper for
`format_timestamp` (required integer `timestamp`, optional string
`timezone`). -/
def format_timestamp_tool (env : Env) (args : ToolArgs) : Except String PyVal :=
  match lookupArg args "timestamp" with
  | some (PyVal.int ts) =>
      match lookupArg args "timezone" with
      | none => captureExc (format_timestamp env ts format_timestamp_default_tz)
      | some (PyVal.str s) => captureExc (format_timestamp env ts s)
      | some (PyVal.int _) => Except.error "schema mismatch: timezone must be a string"
  | some (PyVal.str _) => Except.error "schema mismatch: timestamp must be an integer"
  | none => Except.error "schema mismatch: missing required argument timestamp"

/-- A registry entry: tool name, human description, wrapped handler. -/
structure ToolDescriptor where
  name : String
  description : String
  handler : ToolArgs → Except String PyVal

/-- The registry built by the three `@mcp.tool()` registrations at module
load (server.py lines 36, 73, 87), in source order. -/
def toolRegistry (env : Env) : List ToolDescriptor :=
  [ { name := "get_current_time", description := "获取指定时区的当前时间",
      handler := get_current_time_tool env },
    { name := "get_timestamp", description := "获取当前Unix时间戳（秒）",
      handler := get_timestamp_tool env },
    { name := "format_timestamp", description := "将Unix时间戳转换为指定时区的可读时间格式",
      handler := format_timestamp_tool env } ]

/-- A decoded call request: client correlation id, tool name, arguments. -/
structure CallRequest where
  id : Nat
  toolName : String
  arguments : ToolArgs

/-- A call result: echoes the request id and carries exactly one of value or
error. -/
structure CallResult where
  id : Nat
  value : Option PyVal
  error : Option String
deriving DecidableEq

/-- Modelled from the spec: the Dispatcher (external mcp library) looks the
requested tool name up in the registry; on miss it returns a `CallResult`
with an unknown-tool error, on hit it runs the wrapped handler and converts
its outcome into a `CallResult`.  It is a total function: no outcome is a
fault that closes the session. -/
def dispatch (reg : List ToolDescriptor) (req : CallRequest) : CallResult :=
  match List.find? (fun d => d.name = req.toolName) reg with
  | none =>
      { id := req.id, value := none,
        error := some ("unknown tool: " ++ req.toolName) }
  | some d =>
      match d.handler req.arguments with
      | Except.ok v => { id := req.id, value := some v, error := none }
      | Except.error m => { id := req.id, value := none, error := some m }

/-! ## Startup (server.py lines 193-238) -/

/-- The transport `main` selects. -/
inductive Transport where
  | stdio
  | sse (host : String) (port : Nat)
deriving DecidableEq

/-- server.py lines 206-224: argparse with `--remote` (store_true), `--host`
(default "0.0.0.0") and `--port` (default 8000).  `remoteFlag` is whether
`--remote` was passed; the options are `none` when absent. -/
structure Args where
  remote : Bool
  host : String
  port : Nat
deriving DecidableEq

/-- Argument parsing: absent options take their argparse defaults. -/
def parse_args (remoteFlag : Bool) (hostOpt : Option String) (portOpt : Option Nat) : Args :=
  { remote := remoteFlag, host := hostOpt.getD "0.0.0.0", port := portOpt.getD 8000 }

/-- server.py lines 226-233: the branch of `main` on `args.remote`. -/
def main_transport (a : Args) : Transport :=
  if a.remote then Transport.sse a.host a.port else Transport.stdio

/-- One observable event of the process lifetime that touches the tool
registry or serves sessions. -/
inductive StartupEvent where
  | register (name : String)
  | serve (t : Transport)
deriving DecidableEq

/-- The names registered at module import, in source order (decorators at
server.py lines 36, 73, 87 run when the module is imported). -/
def registration_order : List String :=
  ["get_current_time", "get_timestamp", "format_timestamp"]

/-- The process lifetime as a sequence of registry/serving events: loading
the module runs the three registrations, then `main` selects a transport and
serves; nothing after the serve event touches the registry. -/
def process_events (a : Args) : List StartupEvent :=
  List.map StartupEvent.register registration_order ++
    [StartupEvent.serve (main_transport a)]

/-- Whether an event is a registration. -/
def isRegister : StartupEvent → Bool
  | StartupEvent.register _ => true
  | StartupEvent.serve _ => false

/-- Whether an event serves sessions. -/
def isServe : StartupEvent → Bool
  | StartupEvent.register _ => false
  | StartupEvent.serve _ => true

/-! ## SSE message delivery (external mcp library, modelled from the spec) -/

/-- The session registry of the SSE transport: live session id with its
inbound message queue. -/
abbrev SessionRegistry : Type := List (Nat × List String)

/-- Modelled from the spec: `SseServerTransport.handle_post_message`
(external mcp library).  It extracts the session id from the request URL and
looks it up among live sessions: on miss it answers a 404 client error and
changes nothing; on hit it appends the posted message to that session's
inbound queue and answers 202 Accepted. -/
def handle_post_message (reg : SessionRegistry) (sid : Nat) (msg : String) :
    Nat × SessionRegistry :=
  match List.find? (fun p => p.1 = sid) reg with
  | none => (404, reg)
  | some _ =>
      (202, List.map (fun p => if p.1 = sid then (p.1, p.2 ++ [msg]) else p) reg)

/-- A concrete environment used to exercise the definitions: two recognized
timezones, a conversion that fails beyond year 9999, and simple renderings. -/
def testEnv : Env :=
  { validTz := fun s => s == "UTC" || s == "Asia/Shanghai",
    convFail := fun ts => if ts > 253402300799 then some "year out of range" else none,
    nowFmt := fun tz => "2026-10-12 08:00:00 " ++ tz,
    tsFmt := fun ts tz => toString ts ++ " " ++ tz,
    nowTs := 1760227200 }

/-! ## Theorems -/

/-- C9: for every ASGI scope whose type is not "http", the application
returns immediately without sending any response event. -/
theorem C9_non_http_ignored (scope : Scope) (h : scope.type ≠ "http") :
    app scope = (RouteTarget.ignored, []) := by
  simp [app, h]

/-- Witness for C9 at a concrete lifespan scope. -/
theorem C9_non_http_ignored_witness :
    app { type := "lifespan", path := "/", method := none } =
      (RouteTarget.ignored, []) :=
  C9_non_http_ignored { type := "lifespan", path := "/", method := none } (by decide)

/-- C1: for every HTTP exchange, the router dispatches to the SSE session
handler exactly when (method, path) = (GET, "/sse"), to the message-delivery
handler exactly when (method, path) = (POST, "/messages"), and for every
other combination sends a 404 plain-text response and invokes no handler. -/
theorem C1_router_dispatch (scope : Scope) (m : String)
    (hhttp : scope.type = "http") (hm : scope.method = some m) :
    ((app scope).1 = RouteTarget.handleSse ↔ (m = "GET" ∧ scope.path = "/sse")) ∧
    ((app scope).1 = RouteTarget.handlePostMessage ↔
      (m = "POST" ∧ scope.path = "/messages")) ∧
    (¬(m = "GET" ∧ scope.path = "/sse") →
      ¬(m = "POST" ∧ scope.path = "/messages") →
      app scope =
        (RouteTarget.notFound,
          [ AsgiEvent.responseStart 404 [("content-type", "text/plain")],
            AsgiEvent.responseBody "Not Found" ])) := by
  simp only [app, hhttp, hm, Option.getD_some, ne_eq, not_true_eq_false, if_false]
  split_ifs with h1 h2
  · simp_all
  · simp_all
  · simp_all; tauto

/-- Witness for C1 at a concrete unmatched path. -/
theorem C1_router_dispatch_witness :
    app { type := "http", path := "/nope", method := some "GET" } =
      (RouteTarget.notFound,
        [ AsgiEvent.responseStart 404 [("content-type", "text/plain")],
          AsgiEvent.responseBody "Not Found" ]) :=
  (C1_router_dispatch { type := "http", path := "/nope", method := some "GET" }
    "GET" rfl rfl).2.2 (by decide) (by decide)

/-- C2: for every unrecognized timezone name, `get_current_time` and
`format_timestamp` raise a `ValueError` whose message literally contains the
offending name (never returning a value and never propagating the
`ZoneInfoNotFoundError`), and for every recognized timezone
`get_current_time` returns a formatted string. -/
theorem C2_timezone_validation (env : Env) (tz : String) (ts : Int) :
    (env.validTz tz = false →
      get_current_time env tz =
        Except.error (PyExc.valueError
          ("无效的时区名称: " ++ tz ++
           "。请使用标准时区名称，如 \x27Asia/Shanghai\x27, \x27UTC\x27, \x27America/New_York\x27 等。")) ∧
      format_timestamp env ts tz =
        Except.error (PyExc.valueError ("无效的时区名称: " ++ tz))) ∧
    (env.validTz tz = true →
      ∃ s, get_current_time env tz = Except.ok s) := by
  constructor
  · intro h
    constructor
    · simp [get_current_time, zoneInfo, h]
    · simp [format_timestamp, zoneInfo, h]
  · intro h
    exact ⟨env.nowFmt tz, by simp [get_current_time, zoneInfo, h]⟩

/-- Witness for C2: an unrecognized and a recognized timezone in the
concrete environment. -/
theorem C2_timezone_validation_witness :
    get_current_time testEnv "Mars/Olympus" =
      Except.error (PyExc.valueError
        ("无效的时区名称: " ++ "Mars/Olympus" ++
         "。请使用标准时区名称，如 \x27Asia/Shanghai\x27, \x27UTC\x27, \x27America/New_York\x27 等。")) ∧
    ∃ s, get_current_time testEnv "UTC" = Except.ok s :=
  ⟨((C2_timezone_validation testEnv "Mars/Olympus" 0).1 (by decide)).1,
   (C2_timezone_validation testEnv "UTC" 0).2 (by decide)⟩

/-- C3: with a recognized timezone, `format_timestamp` turns a failing
timestamp conversion (`OSError`/`OverflowError`) into a `ValueError` whose
message names the timestamp, returns the formatted string for every
representable timestamp, and never propagates the original range error. -/
theorem C3_timestamp_range (env : Env) (ts : Int) (tz : String)
    (hv : env.validTz tz = true) :
    (∀ m, env.convFail ts = some m →
      format_timestamp env ts tz =
        Except.error (PyExc.valueError
          ("无效的时间戳: " ++ toString ts ++ "。错误: " ++ m))) ∧
    (env.convFail ts = none →
      format_timestamp env ts tz = Except.ok (env.tsFmt ts tz)) ∧
    (∀ m, format_timestamp env ts tz ≠ Except.error (PyExc.rangeError m)) := by
  refine ⟨?_, ?_, ?_⟩
  · intro m hm
    simp [format_timestamp, zoneInfo, datetime_fromtimestamp, hv, hm]
  · intro hn
    simp [format_timestamp, zoneInfo, datetime_fromtimestamp, hv, hn]
  · intro m
    cases hc : env.convFail ts <;>
      simp [format_timestamp, zoneInfo, datetime_fromtimestamp, hv, hc]

/-- Witness for C3: an out-of-range and an in-range timestamp in the
concrete environment. -/
theorem C3_timestamp_range_witness :
    format_timestamp testEnv 999999999999 "UTC" =
      Except.error (PyExc.valueError
        ("无效的时间戳: " ++ toString (999999999999 : Int) ++
         "。错误: " ++ "year out of range")) ∧
    format_timestamp testEnv 0 "UTC" = Except.ok (testEnv.tsFmt 0 "UTC") :=
  ⟨(C3_timestamp_range testEnv 999999999999 "UTC" (by decide)).1
      "year out of range" (by decide),
   (C3_timestamp_range testEnv 0 "UTC" (by decide)).2.1 (by decide)⟩

/-- C10: `format_timestamp` validates the timezone before the timestamp:
when both are invalid, the error is the invalid-timezone `ValueError` and
`datetime.fromtimestamp` is never reached; the instrumented control flow
agrees with `format_timestamp` on the result. -/
theorem C10_validation_order (env : Env) (ts : Int) (tz : String)
    (hv : env.validTz tz = false) (_hc : env.convFail ts ≠ none) :
    format_timestamp_trace env ts tz =
      (Except.error (PyExc.valueError ("无效的时区名称: " ++ tz)), false) ∧
    (format_timestamp_trace env ts tz).1 = format_timestamp env ts tz := by
  constructor
  · simp [format_timestamp_trace, zoneInfo, hv]
  · simp [format_timestamp_trace, format_timestamp, zoneInfo, hv]

/-- Witness for C10: both the timezone and the timestamp are invalid in the
concrete environment. -/
theorem C10_validation_order_witness :
    format_timestamp_trace testEnv 999999999999 "Mars/Olympus" =
      (Except.error (PyExc.valueError ("无效的时区名称: " ++ "Mars/Olympus")),
        false) :=
  (C10_validation_order testEnv 999999999999 "Mars/Olympus"
    (by decide) (by decide)).1

/-- C4: dispatching a call for any tool name other than the three registered
ones returns a `CallResult` with the unknown-tool error set and no value;
`dispatch` is total, so no outcome is a fault that closes the session. -/
theorem C4_unknown_tool (env : Env) (req : CallRequest)
    (h : req.toolName ∉ ["get_current_time", "get_timestamp", "format_timestamp"]) :
    dispatch (toolRegistry env) req =
      { id := req.id, value := none,
        error := some ("unknown tool: " ++ req.toolName) } := by
  simp only [List.mem_cons, List.not_mem_nil, or_false, not_or] at h
  obtain ⟨h1, h2, h3⟩ := h
  simp [dispatch, toolRegistry, List.find?, Ne.symm h1, Ne.symm h2, Ne.symm h3]

/-- Witness for C4 at the tool name from the end-to-end scenario. -/
theorem C4_unknown_tool_witness :
    dispatch (toolRegistry testEnv)
      { id := 7, toolName := "does-not-exist", arguments := [] } =
      { id := 7, value := none, error := some ("unknown tool: " ++ "does-not-exist") } :=
  C4_unknown_tool testEnv
    { id := 7, toolName := "does-not-exist", arguments := [] } (by decide)

/-- C5: the three registrations run at module import, so in the process
event sequence every registration strictly precedes the serve event; the
registered names are pairwise distinct; and the registration events over the
whole process lifetime are exactly the three import-time ones, so nothing
adds, removes or modifies a registry entry after serving begins. -/
theorem C5_registry_frozen (env : Env) (a : Args) (i j : Nat)
    (hi : i < (process_events a).length) (hj : j < (process_events a).length)
    (hri : isRegister ((process_events a).get ⟨i, hi⟩) = true)
    (hsj : isServe ((process_events a).get ⟨j, hj⟩) = true) :
    i < j ∧
    List.Nodup (List.map ToolDescriptor.name (toolRegistry env)) ∧
    List.filter isRegister (process_events a) =
      List.map StartupEvent.register registration_order := by
  have hnames : List.map ToolDescriptor.name (toolRegistry env) = registration_order := rfl
  refine ⟨?_, by rw [hnames]; decide, rfl⟩
  have hlen : (process_events a).length = 4 := rfl
  rw [hlen] at hi hj
  interval_cases j
  · exact Bool.noConfusion hsj
  · exact Bool.noConfusion hsj
  · exact Bool.noConfusion hsj
  · interval_cases i
    · omega
    · omega
    · omega
    · exact Bool.noConfusion hri

/-- Witness for C5: the first registration precedes the serve event in the
default-argument run. -/
theorem C5_registry_frozen_witness :
    List.Nodup (List.map ToolDescriptor.name (toolRegistry testEnv)) :=
  (C5_registry_frozen testEnv (parse_args false none none) 0 3
    (by decide) (by decide) rfl rfl).2.1

/-- C6: the endpoint announced on stream open is the constructor argument
"/messages", which is exactly the path at which the router dispatches POST
exchanges to the message-delivery handler. -/
theorem C6_endpoint_consistency (scope : Scope)
    (hhttp : scope.type = "http") (hm : scope.method = some "POST")
    (hp : scope.path = announced_endpoint) :
    announced_endpoint = "/messages" ∧
    (app scope).1 = RouteTarget.handlePostMessage := by
  refine ⟨rfl, ?_⟩
  simp [app, hhttp, hm, hp, announced_endpoint, sse_transport_endpoint]

/-- Witness for C6 at a concrete POST scope on the announced path. -/
theorem C6_endpoint_consistency_witness :
    (app { type := "http", path := "/messages", method := some "POST" }).1 =
      RouteTarget.handlePostMessage :=
  (C6_endpoint_consistency
    { type := "http", path := "/messages", method := some "POST" }
    rfl rfl rfl).2

/-- C7: argument parsing fills in the defaults 0.0.0.0 and 8000, `main`
selects stdio without `--remote` and the SSE server on the configured host
and port with it, and the process event sequence contains exactly one serve
event, whose transport is determined by the initial arguments alone. -/
theorem C7_startup_config (remoteFlag : Bool) (hostOpt : Option String)
    (portOpt : Option Nat) :
    (parse_args remoteFlag hostOpt portOpt).host = hostOpt.getD "0.0.0.0" ∧
    (parse_args remoteFlag hostOpt portOpt).port = portOpt.getD 8000 ∧
    main_transport (parse_args remoteFlag hostOpt portOpt) =
      (if remoteFlag then
        Transport.sse (hostOpt.getD "0.0.0.0") (portOpt.getD 8000)
      else Transport.stdio) ∧
    List.filter isServe (process_events (parse_args remoteFlag hostOpt portOpt)) =
      [StartupEvent.serve (main_transport (parse_args remoteFlag hostOpt portOpt))] := by
  refine ⟨rfl, rfl, ?_, rfl⟩
  cases remoteFlag <;> rfl

/-- C8: delivering a POSTed message for a session id with no live session
answers a 404 client error and leaves the whole registry unchanged; for a
live session id it answers 202 and every other session's state is
unchanged. -/
theorem C8_post_session_lookup (reg : SessionRegistry) (sid : Nat) (msg : String) :
    (sid ∉ List.map Prod.fst reg →
      400 ≤ (handle_post_message reg sid msg).1 ∧
      (handle_post_message reg sid msg).1 < 500 ∧
      (handle_post_message reg sid msg).2 = reg) ∧
    (sid ∈ List.map Prod.fst reg →
      (handle_post_message reg sid msg).1 = 202 ∧
      (∀ p, p ∈ reg → p.1 ≠ sid → p ∈ (handle_post_message reg sid msg).2) ∧
      (∀ q, q ∈ (handle_post_message reg sid msg).2 → q.1 ≠ sid → q ∈ reg)) := by
  constructor
  · intro h
    have hf : List.find? (fun p => p.1 = sid) reg = none := by
      rw [List.find?_eq_none]
      intro x hx
      simp only [decide_eq_true_eq]
      intro hx1
      exact h (List.mem_map.mpr ⟨x, hx, hx1⟩)
    simp [handle_post_message, hf]
  · intro h
    obtain ⟨x, hx, hx1⟩ := List.mem_map.mp h
    cases hf : List.find? (fun p => p.1 = sid) reg with
    | none =>
        rw [List.find?_eq_none] at hf
        exact absurd (by simpa using hx1) (hf x hx)
    | some y =>
        refine ⟨by simp [handle_post_message, hf], ?_, ?_⟩
        · intro p hp hne
          simp only [handle_post_message, hf]
          exact List.mem_map.mpr ⟨p, hp, by simp [hne]⟩
        · intro q hq hne
          simp only [handle_post_message, hf] at hq
          obtain ⟨p, hp, hpq⟩ := List.mem_map.mp hq
          by_cases hps : p.1 = sid
          · rw [if_pos hps] at hpq
            exact absurd (by rw [← hpq]; exact hps) hne
          · rw [if_neg hps] at hpq
            exact hpq ▸ hp

/-- Witness for C8: a miss and a hit on a concrete two-session registry. -/
theorem C8_post_session_lookup_witness :
    (handle_post_message [(1, []), (2, ["a"])] 7 "hello").2 = [(1, []), (2, ["a"])] ∧
    (handle_post_message [(1, []), (2, ["a"])] 1 "hello").1 = 202 :=
  ⟨((C8_post_session_lookup [(1, []), (2, ["a"])] 7 "hello").1 (by decide)).2.2,
   ((C8_post_session_lookup [(1, []), (2, ["a"])] 1 "hello").2 (by decide)).1⟩

end MCP
